import Mathlib

/-!
Verification development for the SpeakWrite voice-dictation utility.

The repository has three Python modules:
- `main.py`: global-hotkey dictation loop (pynput listener, `on_press` /
  `on_release`, `record_audio`, `process_audio_buffer`, `transcribe_audio`,
  `type_text` with a clipboard fallback);
- `ydotoold.py`: interactive window-picker typing tool (`display_window_menu`,
  `type_with_human_speed`, a two-stage `type_text`, `main` loop);
- `whisper.py`: the same window-picker tool with manual voice transcription
  (`transcribe_input_to_text`).

The definitions below are a shallow embedding of those functions: external
effects (subprocess calls, clipboard writes, alerts, model invocations) are
reified either as entries of an effect trace or as outcomes supplied by an
environment record, and the Python control flow is translated directly.
Audio samples are modelled as rationals (the silence check compares
magnitudes against the literal threshold 1/100 and is insensitive to
floating-point rounding at that comparison).
-/

namespace SpeakWrite

/-! ## Embedding of `ydotoold.py` (and the identical parts of `whisper.py`) -/

namespace Ydotoold

/-- External effects of the typing fallback chain in `ydotoold.py`.
`clipboardCopy` never occurs in this module's code; it is included in the
effect alphabet so that its absence from every trace is expressible. -/
inductive Effect where
  | typedPydotool (s : String)
  | typedSubprocess (s : String)
  | clipboardCopy (s : String)
  deriving DecidableEq, Repr

/-- Environment for the typing chain: whether the `pydotool` import/init
succeeded at startup (`pydotool_available` global), and whether each typing
path succeeds when attempted. `clipboardWorks` is carried so that the
hypothetical third stage of the claim can be stated; the code never reads it. -/
structure TypingEnv where
  pydotool_available : Bool
  pydotoolWorks : Bool
  subprocessWorks : Bool
  clipboardWorks : Bool
  deriving DecidableEq, Repr

/-- `type_with_human_speed(text, use_pydotool)`: tries the selected path,
returns success flag; per-character delays are presentation only and are not
modelled. A failing path raises inside its `try` and yields `False` with no
completed typing effect. -/
def type_with_human_speed (env : TypingEnv) (text : String) (use_pydotool : Bool) :
    Bool × List Effect :=
  if use_pydotool then
    if env.pydotoolWorks then (true, [Effect.typedPydotool text]) else (false, [])
  else
    if env.subprocessWorks then (true, [Effect.typedSubprocess text]) else (false, [])

/-- `type_text(text)` in `ydotoold.py`: try pydotool (when available), then the
subprocess fallback; if both fail, print an error and return `False`.
There is no clipboard stage in this function. -/
def type_text (env : TypingEnv) (text : String) : Bool × List Effect :=
  if env.pydotool_available then
    let r1 := type_with_human_speed env text true
    if r1.1 then r1
    else
      let r2 := type_with_human_speed env text false
      (r2.1, r1.2 ++ r2.2)
  else
    type_with_human_speed env text false

/-- ASCII model of Python's `str.isprintable` used to clean menu input. -/
def isPrintableAscii (c : Char) : Bool := 32 ≤ c.toNat && c.toNat ≤ 126

/-- Python `str.strip()` on a character list: drop whitespace from both
ends. -/
def pyStrip (l : List Char) : List Char :=
  ((l.dropWhile Char.isWhitespace).reverse.dropWhile Char.isWhitespace).reverse

/-- `''.join(c for c in raw_input if c.isprintable()).strip()` -/
def cleanChoice (raw : String) : List Char :=
  pyStrip (raw.toList.filter isPrintableAscii)

/-- Python `str.lower()` (character-wise). -/
def pyLower (l : List Char) : List Char := l.map Char.toLower

/-- Decimal-digit run parse, the core of Python `int(s)`. -/
def parseDigits (l : List Char) : Option Nat :=
  if l = [] then none
  else if l.all Char.isDigit then
    some (l.foldl (fun acc c => 10 * acc + (c.toNat - 48)) 0)
  else none

/-- Python `int(s)` on an already-stripped string: an optional minus sign
followed by decimal digits, `ValueError` (`none`) otherwise. (`int()` also
accepts a leading plus and digit-group underscores; no claim depends on
those inputs.) -/
def parseInt : List Char → Option Int
  | '-' :: rest => (parseDigits rest).map (fun n => -(n : Int))
  | l => (parseDigits l).map (fun n => (n : Int))

/-- `display_window_menu(windows, text_preview)`: returns `none` for
'q'/'quit'/'exit' (case-insensitive), for non-numeric input (`ValueError`
branch) and for an out-of-range number; otherwise returns the window id
(first component) of the 1-based selected entry. The prompt/printing side
is not modelled; `raw` is the line read from `input()`. -/
def display_window_menu (windows : List (String × String)) (raw : String) :
    Option String :=
  let choice := cleanChoice raw
  if pyLower choice = ['q'] ∨ pyLower choice = ['q', 'u', 'i', 't'] ∨
      pyLower choice = ['e', 'x', 'i', 't'] then
    none
  else
    match parseInt choice with
    | none => none
    | some n =>
      if 1 ≤ n ∧ n ≤ (windows.length : Int) then
        (windows[n.toNat - 1]?).map Prod.fst
      else
        none

/-- What `main`'s `while True` loop does with the value returned by
`display_window_menu`: `if not selected_window: if selected_window is None:
break / continue`, else proceed to focus-and-type. -/
inductive LoopAction where
  | exitLoop
  | nextIteration
  | proceedFocus (window_id : String)
  deriving DecidableEq, Repr

/-- The selection-handling step of `main` in `ydotoold.py` (identical in
`whisper.py`): `None` breaks the loop, a falsy non-`None` value (empty
string) continues, anything else proceeds. -/
def handle_selection (sel : Option String) : LoopAction :=
  match sel with
  | none => LoopAction.exitLoop
  | some w => if w = "" then LoopAction.nextIteration else LoopAction.proceedFocus w

end Ydotoold

/-! ## Embedding of `main.py` -/

namespace Main

/-- Key identifiers as seen by the pynput listener callbacks. -/
inductive Key where
  | ctrl
  | alt
  | char (c : Char)
  | other (n : Nat)
  deriving DecidableEq, Repr

/-- The two module-level mutable variables of the hotkey gate:
`is_dictating` and `pressed_keys` (a set, modelled as a duplicate-free
list via a guarded insert). -/
structure GateState where
  is_dictating : Bool
  pressed_keys : List Key
  deriving DecidableEq, Repr

/-- `pressed_keys.add(key)`: set insertion. -/
def insertKey (k : Key) (l : List Key) : List Key :=
  if k ∈ l then l else k :: l

/-- `on_press(key)`: add the key to the pressed set, then, if the key is
`'1'` and `{ctrl, alt}` is a subset of the pressed set and dictation is not
already active, set `is_dictating` and start the recording thread. The
returned flag is true exactly when the dictation-start action fires. -/
def on_press (st : GateState) (k : Key) : GateState × Bool :=
  let pressed := insertKey k st.pressed_keys
  if k = Key.char '1' ∧ Key.ctrl ∈ pressed ∧ Key.alt ∈ pressed then
    if st.is_dictating then ({ st with pressed_keys := pressed }, false)
    else ({ is_dictating := true, pressed_keys := pressed }, true)
  else
    ({ st with pressed_keys := pressed }, false)

/-- `on_release(key)`: remove the key from the pressed set only if present
(`if key in pressed_keys: pressed_keys.remove(key)`); then, if the key is
`'1'` and dictation is active, clear `is_dictating` (and process the buffer,
reported by the returned flag). -/
def on_release (st : GateState) (k : Key) : GateState × Bool :=
  let pressed :=
    if k ∈ st.pressed_keys then st.pressed_keys.erase k else st.pressed_keys
  if k = Key.char '1' then
    if st.is_dictating then
      ({ is_dictating := false, pressed_keys := pressed }, true)
    else
      ({ st with pressed_keys := pressed }, false)
  else
    ({ st with pressed_keys := pressed }, false)

/-- `untrack_keys(key)`: `pressed_keys.discard(key)` — removal that is a
no-op when the key is absent. -/
def untrack_keys (pressed : List Key) (k : Key) : List Key := pressed.erase k

/-- A keyboard event delivered to the listener callbacks. -/
inductive Event where
  | press (k : Key)
  | release (k : Key)
  deriving DecidableEq, Repr

/-- Dispatch one event to `on_press` / `on_release`; the flag reports a
dictation-start firing (release events never fire the start action). -/
def gate_step (st : GateState) (e : Event) : GateState × Bool :=
  match e with
  | Event.press k => on_press st k
  | Event.release k => ((on_release st k).1, false)

/-- Run the gate over an event sequence, counting dictation-start firings. -/
def runGate (st : GateState) : List Event → GateState × Nat
  | [] => (st, 0)
  | e :: rest =>
    let s := gate_step st e
    let r := runGate s.1 rest
    (r.1, (if s.2 then 1 else 0) + r.2)

/-- The initial gate state: not dictating, no keys pressed. -/
def gate0 : GateState := ⟨false, []⟩

/-- The activation chord `ctrl+alt+1` is fully pressed. -/
def chordSatisfied (pressed : List Key) : Bool :=
  decide (Key.ctrl ∈ pressed) && decide (Key.alt ∈ pressed) &&
    decide (Key.char '1' ∈ pressed)

/-- Events of the `record_audio` capture loop. `dispatch b` records a call
to `process_audio_buffer` from inside the loop, with `b` the value the
`is_dictating` flag had when the loop iteration began. -/
inductive RecEvent where
  | readChunk
  | dispatch (flagAtDispatch : Bool)
  deriving DecidableEq, Repr

/-- The `while is_dictating` body of `record_audio`, driven by a schedule of
flag readings (one per iteration). Each true iteration reads one chunk and
appends it; when `len(audio_buffer) * 0.5 >= 2` (i.e. at least 4 chunks) it
calls `process_audio_buffer`, which clears the buffer. A false reading exits
the loop. -/
def record_loop : List Bool → Nat → List RecEvent
  | [], _ => []
  | flag :: rest, bufLen =>
    if flag then
      if 4 ≤ bufLen + 1 then
        RecEvent.readChunk :: RecEvent.dispatch flag :: record_loop rest 0
      else
        RecEvent.readChunk :: record_loop rest (bufLen + 1)
    else []

/-- `np.abs` on one sample. -/
def absQ (x : ℚ) : ℚ := if x < 0 then -x else x

/-- Binary max, the reduction step of `np.max`. -/
def maxQ (a b : ℚ) : ℚ := if a ≤ b then b else a

/-- `np.max(np.abs(chunk))`: peak absolute amplitude (0 on an empty list;
the empty case is handled separately where it matters, since `np.max` of an
empty array raises). -/
def peak (samples : List ℚ) : ℚ := (samples.map absQ).foldr maxQ 0

/-- Observable effects of `process_audio_buffer`. -/
inductive PEffect where
  | warnSilent
  | transcribeSubmit (samples : List ℚ)
  | inject (s : String)
  | warnEmpty
  | errorProcessing
  deriving DecidableEq, Repr

/-- `process_audio_buffer()`: return immediately on an empty buffer;
concatenate the chunks; log a silence warning when the peak is below 0.01
(advisory only); submit the chunk to `transcribe_audio`; if the text is
non-empty, inject `text + " "`, else log the empty result. The `except`
branch (`errorProcessing`) is reachable only through `np.max` on an empty
concatenation, since `transcribe_audio` and `type_text` swallow their own
errors. The transcription adapter is passed in as a function. -/
def process_audio_buffer (transcribe : List ℚ → String)
    (buffer : List (List ℚ)) : List PEffect :=
  if buffer = [] then []
  else
    let chunk := buffer.flatten
    if chunk = [] then [PEffect.errorProcessing]
    else
      let silentWarn : List PEffect :=
        if peak chunk < 1 / 100 then [PEffect.warnSilent] else []
      let text := transcribe chunk
      silentWarn ++ [PEffect.transcribeSubmit chunk] ++
        (if text = "" then [PEffect.warnEmpty] else [PEffect.inject (text ++ " ")])

/-- The argument of `transcribe_audio`: a file path, a mono sample array, or
a multi-channel array (rows of samples), of which the code keeps the first
channel. -/
inductive AudioInput where
  | path (p : String)
  | mono (a : List ℚ)
  | multi (rows : List (List ℚ))
  deriving DecidableEq, Repr

/-- `arr[:, 0]`: first channel of a 2-D array. -/
def firstChannel (rows : List (List ℚ)) : List ℚ := rows.filterMap List.head?

/-- Environment for `transcribe_audio`: whether `sf.write` of the temporary
WAV file succeeds, and what the ASR pipeline does when invoked (raises, or
returns the `"text"` field, defaulted to `""` by `result.get`). -/
structure TranscribeEnv where
  writeOk : Bool
  modelResult : Except String String
  deriving Repr

/-- The body of `transcribe_audio`'s `try` block: choose the audio path
(writing a temp file for array input), invoke the model, and strip the text.
An error value models an exception escaping the corresponding step. -/
def transcribe_core (env : TranscribeEnv) (inp : AudioInput) :
    Except String String :=
  match inp with
  | AudioInput.path _ => env.modelResult.map (fun t => t.trim)
  | AudioInput.mono _ =>
    if env.writeOk then env.modelResult.map (fun t => t.trim)
    else Except.error "sf.write failed"
  | AudioInput.multi _ =>
    if env.writeOk then env.modelResult.map (fun t => t.trim)
    else Except.error "sf.write failed"

/-- `transcribe_audio(audio_input)`: the whole body runs under
`try ... except Exception: return ""`, so every internal failure is mapped
to the empty string and nothing propagates. -/
def transcribe_audio (env : TranscribeEnv) (inp : AudioInput) : String :=
  match transcribe_core env inp with
  | Except.ok t => t
  | Except.error _ => ""

/-- Outcome of the `subprocess.run(["ydotool", ...], check=True)` call in
`main.py`'s `type_text`. -/
inductive InjectOutcome where
  | ok
  | calledProcessError
  | otherFailure
  deriving DecidableEq, Repr

/-- Environment for `main.py`'s `type_text`: whether `pyautogui` reports an
active window, whether the Wayland+ydotool path is selected
(`os.name == "posix" and is_wayland() and shutil.which("ydotool")`), the
outcome of the ydotool subprocess, and whether the pynput / pyperclip paths
succeed when attempted. -/
structure InjectEnv where
  activeWindow : Bool
  waylandYdotool : Bool
  ydotoolRun : InjectOutcome
  pynputOk : Bool
  clipboardOk : Bool
  deriving DecidableEq, Repr

/-- Observable effects of `main.py`'s `type_text` and its clipboard
fallback. -/
inductive MEffect where
  | alertNoWindow
  | ydotoolTyped (s : String)
  | pynputTyped (s : String)
  | clipboardCopy (s : String)
  | pasteKeychord
  | alertInjectionFailure
  | alertClipboardFailure
  deriving DecidableEq, Repr

/-- `use_clipboard_fallback(text)`: `pyperclip.copy(text)` then Ctrl+V; its
own failure is caught and reported with an alert. -/
def use_clipboard_fallback (env : InjectEnv) (text : String) : List MEffect :=
  if env.clipboardOk then [MEffect.clipboardCopy text, MEffect.pasteKeychord]
  else [MEffect.alertClipboardFailure]

/-- `type_text(text)` in `main.py`: alert if no active window; on the
Wayland+ydotool path run the ydotool subprocess, falling back to the
clipboard on `CalledProcessError` and to an alert on any other exception;
otherwise type via pynput (its failure reaches the generic `except` and
alerts). The function returns `None` in Python; only its effects matter. -/
def type_text (env : InjectEnv) (text : String) : List MEffect :=
  if env.activeWindow = false then [MEffect.alertNoWindow]
  else if env.waylandYdotool then
    match env.ydotoolRun with
    | InjectOutcome.ok => [MEffect.ydotoolTyped text]
    | InjectOutcome.calledProcessError => use_clipboard_fallback env text
    | InjectOutcome.otherFailure => [MEffect.alertInjectionFailure]
  else
    if env.pynputOk then [MEffect.pynputTyped text]
    else [MEffect.alertInjectionFailure]

end Main

/-! ## Embedding of `whisper.py`'s `transcribe_input_to_text` -/

namespace Whisper

/-- The ordered events of a `transcribe_input_to_text` run that matter for
the capture/transcription handoff. -/
inductive TEvent where
  | startRecording
  | setFlagFalse
  | joinRecorder
  | snapshotBuffer
  deriving DecidableEq, Repr

/-- The inner `while True` of `transcribe_input_to_text` after recording has
started: read lines until a `'q'` (after strip/lower); on `'q'`, clear
`recording_active`, join the recorder thread, and break — after which the
outer code snapshots `audio_data` and submits it to the model. An exhausted
input stream models `input()` blocking forever: no further events. -/
def stop_inner : List String → List TEvent
  | [] => []
  | c :: rest =>
    if c.trim.toLower = "q" then
      [TEvent.setFlagFalse, TEvent.joinRecorder, TEvent.snapshotBuffer]
    else stop_inner rest

/-- The outer command loop of `transcribe_input_to_text`: `'q'` quits with
no recording; `'s'` starts the recorder thread and enters the inner stop
loop; anything else re-prompts. -/
def run_cmds : List String → List TEvent
  | [] => []
  | c :: rest =>
    if c.trim.toLower = "q" then []
    else if c.trim.toLower = "s" then
      TEvent.startRecording :: stop_inner rest
    else run_cmds rest

/-- Whether an event belongs to the capture/transcription handoff. -/
def isHandoff : TEvent → Bool
  | TEvent.setFlagFalse => true
  | TEvent.joinRecorder => true
  | TEvent.snapshotBuffer => true
  | TEvent.startRecording => false

/-- The handoff-relevant subsequence of a trace: flag clear, thread join,
buffer snapshot. -/
def controlEvents (t : List TEvent) : List TEvent := t.filter isHandoff

end Whisper

/-! ## Claims -/

/-- Claim C9: processing a release event for a key not currently in the
pressed-key set does not raise (the functions are total) and leaves the
pressed-key set unchanged, both in `on_release` (guarded `remove`) and in
`untrack_keys` (`discard`). -/
theorem C9_release_untracked_keeps_pressed (st : Main.GateState) (k : Main.Key)
    (h : k ∉ st.pressed_keys) :
    ((Main.on_release st k).1).pressed_keys = st.pressed_keys ∧
    Main.untrack_keys st.pressed_keys k = st.pressed_keys := by
  constructor
  · simp only [Main.on_release, if_neg h]
    split
    · split <;> rfl
    · rfl
  · exact List.erase_of_not_mem h

/-- Claim C9 witness: releasing `alt` when only `ctrl` is pressed leaves the
pressed-key set unchanged. -/
theorem C9_witness :
    ((Main.on_release ⟨false, [Main.Key.ctrl]⟩ Main.Key.alt).1).pressed_keys =
      [Main.Key.ctrl] ∧
    Main.untrack_keys [Main.Key.ctrl] Main.Key.alt = [Main.Key.ctrl] :=
  C9_release_untracked_keeps_pressed ⟨false, [Main.Key.ctrl]⟩ Main.Key.alt (by decide)

/-- Claim C10: `display_window_menu` returns either `none` or the window
identifier (first component) of exactly the entry of the given list at the
user's 1-based selected index — the cleaned input parses to a number `n`
with `1 ≤ n ≤ len(windows)` and the result is the identifier of entry
`n - 1` (0-based); never a title, never an identifier outside the list, and
never an out-of-range index. -/
theorem C10_menu_selects_from_list (windows : List (String × String)) (raw : String) :
    Ydotoold.display_window_menu windows raw = none ∨
    ∃ n : Int, Ydotoold.parseInt (Ydotoold.cleanChoice raw) = some n ∧
      1 ≤ n ∧ n ≤ (windows.length : Int) ∧
      ∃ h : n.toNat - 1 < windows.length,
        Ydotoold.display_window_menu windows raw =
          some (windows.get ⟨n.toNat - 1, h⟩).1 := by
  unfold Ydotoold.display_window_menu
  by_cases hq : Ydotoold.pyLower (Ydotoold.cleanChoice raw) = ['q'] ∨
      Ydotoold.pyLower (Ydotoold.cleanChoice raw) = ['q', 'u', 'i', 't'] ∨
      Ydotoold.pyLower (Ydotoold.cleanChoice raw) = ['e', 'x', 'i', 't']
  · left; simp [hq]
  · simp only [hq, if_false]
    cases hint : Ydotoold.parseInt (Ydotoold.cleanChoice raw) with
    | none => left; simp [hint]
    | some n =>
      by_cases hr : 1 ≤ n ∧ n ≤ (windows.length : Int)
      · right
        have hlt : n.toNat - 1 < windows.length := by omega
        refine ⟨n, rfl, hr.1, hr.2, hlt, ?_⟩
        simp [hint, hr, List.getElem?_eq_getElem hlt, List.get_eq_getElem]
      · left; simp [hint, hr]

/-- Claim C8 (code behavior at the failing input): with one window listed,
both the non-numeric selection `abc` and the out-of-range selection `5` make
`display_window_menu` return `None`, which the `main` loop handles by
`break` — the program terminates instead of re-prompting. -/
theorem C8_invalid_selection_breaks_loop :
    Ydotoold.handle_selection
        (Ydotoold.display_window_menu [("0x04000007", "Terminal")] "abc") =
      Ydotoold.LoopAction.exitLoop ∧
    Ydotoold.handle_selection
        (Ydotoold.display_window_menu [("0x04000007", "Terminal")] "5") =
      Ydotoold.LoopAction.exitLoop := by
  constructor <;> decide

/-- Claim C5: a non-empty buffer whose peak absolute amplitude is below the
silence threshold 0.01 still has its concatenation submitted to the
transcription adapter; the silence check only adds a warning effect. -/
theorem C5_silent_buffer_still_submitted (transcribe : List ℚ → String)
    (buffer : List (List ℚ)) (hne : buffer.flatten ≠ [])
    (hsil : Main.peak buffer.flatten < 1 / 100) :
    Main.PEffect.warnSilent ∈ Main.process_audio_buffer transcribe buffer ∧
    Main.PEffect.transcribeSubmit buffer.flatten ∈
      Main.process_audio_buffer transcribe buffer := by
  have hb : buffer ≠ [] := by
    intro h
    subst h
    exact hne rfl
  unfold Main.process_audio_buffer
  simp only [hb, hne, hsil, if_neg, if_pos, ite_true, ite_false]
  constructor
  · simp
  · simp

/-- Claim C5 witness: the all-zero three-sample buffer is silent and is
still submitted. -/
theorem C5_witness :
    Main.PEffect.warnSilent ∈
      Main.process_audio_buffer (fun _ => "") [[(0 : ℚ), 0, 0]] ∧
    Main.PEffect.transcribeSubmit [(0 : ℚ), 0, 0] ∈
      Main.process_audio_buffer (fun _ => "") [[(0 : ℚ), 0, 0]] :=
  C5_silent_buffer_still_submitted (fun _ => "") [[(0 : ℚ), 0, 0]]
    (by simp) (by simp [Main.peak, Main.absQ, Main.maxQ])

/-- Claim C6: when the transcription result is the empty string, no
injection effect occurs, the outcome is non-error (only the empty-result
warning is logged), and `process_audio_buffer` returns normally so the loop
continues. -/
theorem C6_empty_text_no_injection (transcribe : List ℚ → String)
    (buffer : List (List ℚ)) (hne : buffer.flatten ≠ [])
    (hempty : transcribe buffer.flatten = "") :
    (∀ s, Main.PEffect.inject s ∉ Main.process_audio_buffer transcribe buffer) ∧
    Main.PEffect.errorProcessing ∉ Main.process_audio_buffer transcribe buffer ∧
    Main.PEffect.warnEmpty ∈ Main.process_audio_buffer transcribe buffer := by
  have hb : buffer ≠ [] := by
    intro h
    subst h
    exact hne rfl
  unfold Main.process_audio_buffer
  simp only [hb, hne, hempty, if_neg, ite_true, ite_false]
  refine ⟨fun s => ?_, ?_, ?_⟩
  · split <;> simp
  · split <;> simp
  · split <;> simp

/-- Claim C6 witness: an adapter that returns the empty string on the
all-zero buffer produces no injection, no error, and the warning. -/
theorem C6_witness :
    Main.PEffect.inject " " ∉
      Main.process_audio_buffer (fun _ => "") [[(0 : ℚ), 0, 0]] ∧
    Main.PEffect.errorProcessing ∉
      Main.process_audio_buffer (fun _ => "") [[(0 : ℚ), 0, 0]] ∧
    Main.PEffect.warnEmpty ∈
      Main.process_audio_buffer (fun _ => "") [[(0 : ℚ), 0, 0]] :=
  have h := C6_empty_text_no_injection (fun _ => "") [[(0 : ℚ), 0, 0]] (by decide) rfl
  ⟨h.1 " ", h.2.1, h.2.2⟩

/-- Claim C7: `transcribe_audio` never lets a failure escape: a model
invocation error yields the empty string for every input kind, and a
temp-file write failure yields the empty string for array input. -/
theorem C7_adapter_never_raises (env env2 : Main.TranscribeEnv)
    (inp : Main.AudioInput) (a : List ℚ) (err : String)
    (hmodel : env.modelResult = Except.error err) (hw : env2.writeOk = false) :
    Main.transcribe_audio env inp = "" ∧
    Main.transcribe_audio env2 (Main.AudioInput.mono a) = "" := by
  constructor
  · cases inp with
    | path p => simp [Main.transcribe_audio, Main.transcribe_core, hmodel, Except.map]
    | mono b =>
      by_cases hwr : env.writeOk = true
      · simp [Main.transcribe_audio, Main.transcribe_core, hwr, hmodel, Except.map]
      · simp [Main.transcribe_audio, Main.transcribe_core, hwr]
    | multi rows =>
      by_cases hwr : env.writeOk = true
      · simp [Main.transcribe_audio, Main.transcribe_core, hwr, hmodel, Except.map]
      · simp [Main.transcribe_audio, Main.transcribe_core, hwr]
  · simp [Main.transcribe_audio, Main.transcribe_core, hw]

/-- Claim C7 witness: a raising model maps to `""` on a file-path input, and
a failing temp-file write maps to `""` on an array input. -/
theorem C7_witness :
    Main.transcribe_audio ⟨true, Except.error "model crashed"⟩
        (Main.AudioInput.path "clip.wav") = "" ∧
    Main.transcribe_audio ⟨false, Except.ok "hi"⟩ (Main.AudioInput.mono []) = "" :=
  C7_adapter_never_raises ⟨true, Except.error "model crashed"⟩
    ⟨false, Except.ok "hi"⟩ (Main.AudioInput.path "clip.wav") [] "model crashed"
    rfl rfl

/-- Claim C2 counterexample: with dictation active and the full chord
pressed, releasing `ctrl` leaves the chord unsatisfied yet the gate stays
active (`is_dictating` remains true) — the code only stops on release of
`'1'`. -/
theorem C2_counterexample :
    (((Main.on_release
          ⟨true, [Main.Key.ctrl, Main.Key.alt, Main.Key.char '1']⟩
          Main.Key.ctrl).1).is_dictating = true) ∧
    Main.chordSatisfied
        ((Main.on_release
          ⟨true, [Main.Key.ctrl, Main.Key.alt, Main.Key.char '1']⟩
          Main.Key.ctrl).1).pressed_keys = false := by
  constructor <;> rfl

/-- Claim C2 amended: the gate transitions to idle exactly on release events
of the trigger key `'1'`; releasing any other key (including the chord
modifiers `ctrl` and `alt`) leaves the dictating flag unchanged, and a
release of `'1'` always leaves the gate idle. -/
theorem C2_amended_only_trigger_release_stops (st st2 : Main.GateState)
    (k : Main.Key) (hk : k ≠ Main.Key.char '1') :
    ((Main.on_release st k).1).is_dictating = st.is_dictating ∧
    ((Main.on_release st2 (Main.Key.char '1')).1).is_dictating = false := by
  constructor
  · simp only [Main.on_release, if_neg hk]
  · simp only [Main.on_release, if_pos rfl]
    cases h2 : st2.is_dictating <;> simp [h2]

/-- In `whisper.py`'s inner stop loop, the handoff events occur either not
at all (input exhausted) or exactly in the order flag-clear, thread-join,
buffer-snapshot. -/
theorem Whisper.stop_inner_handoff (l : List String) :
    Whisper.controlEvents (Whisper.stop_inner l) = [] ∨
    Whisper.controlEvents (Whisper.stop_inner l) =
      [Whisper.TEvent.setFlagFalse, Whisper.TEvent.joinRecorder,
       Whisper.TEvent.snapshotBuffer] := by
  induction l with
  | nil => left; rfl
  | cons c rest ih =>
    unfold Whisper.stop_inner
    split
    · right; rfl
    · exact ih

/-- In every `transcribe_input_to_text` run, the handoff events occur either
not at all or exactly in the order flag-clear, thread-join, buffer-snapshot. -/
theorem Whisper.run_cmds_handoff (l : List String) :
    Whisper.controlEvents (Whisper.run_cmds l) = [] ∨
    Whisper.controlEvents (Whisper.run_cmds l) =
      [Whisper.TEvent.setFlagFalse, Whisper.TEvent.joinRecorder,
       Whisper.TEvent.snapshotBuffer] := by
  induction l with
  | nil => left; rfl
  | cons c rest ih =>
    unfold Whisper.run_cmds
    split
    · left; rfl
    · split
      · have h := Whisper.stop_inner_handoff rest
        simpa [Whisper.controlEvents, List.filter_cons, Whisper.isHandoff] using h
      · exact ih

/-- Claim C3 counterexample: in `main.py`'s `record_audio` loop, once four
chunks have accumulated, `process_audio_buffer` (which submits the buffer
for transcription) is called from inside the capture loop while
`is_dictating` is still true — transcription is dispatched while recording
is active, with no join of the capture thread. -/
theorem C3_counterexample :
    Main.RecEvent.dispatch true ∈ Main.record_loop [true, true, true, true] 0 := by
  decide

/-- Claim C3 amended: the writer-stopped-before-read sequencing holds in
`whisper.py`'s `transcribe_input_to_text` (flag cleared, recorder thread
joined, only then the buffer snapshot), but not in `main.py`, whose
`record_audio` dispatches transcription from inside the capture loop while
the recording flag is still true whenever at least four chunks have
accumulated. -/
theorem C3_amended_join_only_in_whisper (cmds : List String) :
    (Whisper.controlEvents (Whisper.run_cmds cmds) = [] ∨
      Whisper.controlEvents (Whisper.run_cmds cmds) =
        [Whisper.TEvent.setFlagFalse, Whisper.TEvent.joinRecorder,
         Whisper.TEvent.snapshotBuffer]) ∧
    Main.RecEvent.dispatch true ∈ Main.record_loop [true, true, true, true] 0 :=
  ⟨Whisper.run_cmds_handoff cmds, by decide⟩

/-- While the gate is active, any event other than a release of the trigger
key `'1'` keeps it active and fires no start action. -/
theorem Main.gate_hold_no_retrigger :
    ∀ (evs : List Main.Event) (st : Main.GateState),
      st.is_dictating = true →
      Main.Event.release (Main.Key.char '1') ∉ evs →
      ((Main.runGate st evs).1).is_dictating = true ∧ (Main.runGate st evs).2 = 0
  | [], st, hact, _ => by simp [Main.runGate, hact]
  | e :: rest, st, hact, hno => by
    have hne : e ≠ Main.Event.release (Main.Key.char '1') := by
      intro h
      exact hno (h ▸ List.mem_cons_self e rest)
    have hrest : Main.Event.release (Main.Key.char '1') ∉ rest :=
      fun h => hno (List.mem_cons_of_mem e h)
    have hstep : ((Main.gate_step st e).1).is_dictating = true ∧
        (Main.gate_step st e).2 = false := by
      cases e with
      | press k =>
        simp only [Main.gate_step, Main.on_press]
        split
        · simp [hact]
        · simp [hact]
      | release k =>
        have hk : k ≠ Main.Key.char '1' := by
          intro h
          exact hne (by rw [h])
        simp only [Main.gate_step, Main.on_release, if_neg hk]
        simp [hact]
    have hrec :=
      Main.gate_hold_no_retrigger rest (Main.gate_step st e).1 hstep.1 hrest
    refine ⟨?_, ?_⟩ <;>
      simp [Main.runGate, hstep.1, hstep.2, hrec.1, hrec.2]

/-- Claim C4 counterexample: pressing `'1'` first and then `ctrl` and `alt`
yields a state in which the full chord is pressed (a contiguous
fully-pressed interval is in progress) while the dictation-start action has
fired zero times — the start fires only on a press event of `'1'` delivered
when both modifiers are already down, so "exactly once per interval" fails. -/
theorem C4_counterexample :
    Main.chordSatisfied
        ((Main.runGate Main.gate0
          [Main.Event.press (Main.Key.char '1'),
           Main.Event.press Main.Key.ctrl,
           Main.Event.press Main.Key.alt]).1).pressed_keys = true ∧
    (Main.runGate Main.gate0
        [Main.Event.press (Main.Key.char '1'),
         Main.Event.press Main.Key.ctrl,
         Main.Event.press Main.Key.alt]).2 = 0 := by decide

/-- Claim C4 amended: the dictation-start action fires at most once per
contiguous interval during which the chord stays held — once the gate is
active, processing any event sequence that contains no release of the
trigger key `'1'` keeps it active and fires no further start action; it may
however fire zero times in such an interval when `'1'` is pressed before the
modifiers are down. -/
theorem C4_amended_at_most_once (st : Main.GateState) (evs : List Main.Event)
    (hact : st.is_dictating = true)
    (hno : Main.Event.release (Main.Key.char '1') ∉ evs) :
    ((Main.runGate st evs).1).is_dictating = true ∧ (Main.runGate st evs).2 = 0 :=
  Main.gate_hold_no_retrigger evs st hact hno

/-- Claim C4 witness: with the gate active and the chord held, a repeated
press of `'1'` and a press of `ctrl` fire no further start action. -/
theorem C4_witness :
    ((Main.runGate ⟨true, [Main.Key.ctrl, Main.Key.alt, Main.Key.char '1']⟩
        [Main.Event.press (Main.Key.char '1'),
         Main.Event.press Main.Key.ctrl]).1).is_dictating = true ∧
    (Main.runGate ⟨true, [Main.Key.ctrl, Main.Key.alt, Main.Key.char '1']⟩
        [Main.Event.press (Main.Key.char '1'),
         Main.Event.press Main.Key.ctrl]).2 = 0 :=
  C4_amended_at_most_once ⟨true, [Main.Key.ctrl, Main.Key.alt, Main.Key.char '1']⟩
    [Main.Event.press (Main.Key.char '1'), Main.Event.press Main.Key.ctrl]
    rfl (by decide)

/-- Claim C1 counterexample: in `ydotoold.py`, with `pydotool` available but
its typing failing and the subprocess stage failing too (and a clipboard
that would succeed), `type_text "hello"` returns `False` and the clipboard
never receives the text — the function has no clipboard stage. -/
theorem C1_counterexample :
    (Ydotoold.type_text ⟨true, false, false, true⟩ "hello").1 = false ∧
    Ydotoold.Effect.clipboardCopy "hello" ∉
      (Ydotoold.type_text ⟨true, false, false, true⟩ "hello").2 := by decide

/-- Claim C1 amended: `ydotoold.py`'s `type_text` has only the pydotool and
subprocess stages — when both fail it returns `False` and writes nothing to
the clipboard; the clipboard fallback exists only in `main.py`'s `type_text`,
where a `CalledProcessError` from the ydotool subprocess stage hands exactly
the input string to the clipboard (and the function returns without
raising). -/
theorem C1_amended_clipboard_only_in_main (envY : Ydotoold.TypingEnv)
    (envM : Main.InjectEnv) (text : String)
    (h1 : envY.pydotoolWorks = false) (h2 : envY.subprocessWorks = false)
    (h3 : envM.activeWindow = true) (h4 : envM.waylandYdotool = true)
    (h5 : envM.ydotoolRun = Main.InjectOutcome.calledProcessError)
    (h6 : envM.clipboardOk = true) :
    (Ydotoold.type_text envY text).1 = false ∧
    (∀ s, Ydotoold.Effect.clipboardCopy s ∉ (Ydotoold.type_text envY text).2) ∧
    Main.MEffect.clipboardCopy text ∈ Main.type_text envM text := by
  refine ⟨?_, ?_, ?_⟩
  · by_cases hav : envY.pydotool_available = true
    · simp [Ydotoold.type_text, Ydotoold.type_with_human_speed, hav, h1, h2]
    · simp [Ydotoold.type_text, Ydotoold.type_with_human_speed, hav, h2]
  · intro s
    by_cases hav : envY.pydotool_available = true
    · simp [Ydotoold.type_text, Ydotoold.type_with_human_speed, hav, h1, h2]
    · simp [Ydotoold.type_text, Ydotoold.type_with_human_speed, hav, h2]
  · simp [Main.type_text, Main.use_clipboard_fallback, h3, h4, h5, h6]

/-- Claim C1 witness: concrete environments in which both `ydotoold.py`
stages fail (returning `False`, clipboard untouched) while `main.py`'s
clipboard fallback receives exactly `"hello"`. -/
theorem C1_witness :
    (Ydotoold.type_text ⟨true, false, false, true⟩ "hello").1 = false ∧
    Ydotoold.Effect.clipboardCopy "hello" ∉
      (Ydotoold.type_text ⟨true, false, false, true⟩ "hello").2 ∧
    Main.MEffect.clipboardCopy "hello" ∈
      Main.type_text ⟨true, true, Main.InjectOutcome.calledProcessError,
        false, true⟩ "hello" :=
  have h := C1_amended_clipboard_only_in_main ⟨true, false, false, true⟩
    ⟨true, true, Main.InjectOutcome.calledProcessError, false, true⟩ "hello"
    rfl rfl rfl rfl rfl rfl
  ⟨h.1, h.2.1 "hello", h.2.2⟩

/-- Claim C2 witness: releasing `alt` while dictating keeps the gate active;
releasing `'1'` deactivates it. -/
theorem C2_witness :
    ((Main.on_release ⟨true, [Main.Key.ctrl, Main.Key.alt, Main.Key.char '1']⟩
        Main.Key.alt).1).is_dictating = true ∧
    ((Main.on_release ⟨true, [Main.Key.char '1']⟩
        (Main.Key.char '1')).1).is_dictating = false :=
  C2_amended_only_trigger_release_stops
    ⟨true, [Main.Key.ctrl, Main.Key.alt, Main.Key.char '1']⟩
    ⟨true, [Main.Key.char '1']⟩ Main.Key.alt (by decide)

end SpeakWrite
